import Mathlib

/-!
Shallow embedding of `src/download_youtube_playlist.py`.

External effects (`os.path.exists`, `os.makedirs`, the yt-dlp extraction
and download calls, the pandas CSV/Excel writers and the wall clock) are
modelled by an environment `Env` of oracles.  Python exceptions are
modelled by `Except PyErr`; an `except Exception:` block is modelled by
catching every `PyErr` (asynchronous `BaseException`s such as
`KeyboardInterrupt` are outside the model).  Every call to the outside
world is recorded in an event trace, so that statements such as "no
network call is attempted" and "no report file is written" are about the
trace.
-/

/-- Python exception values (all of them subclasses of `Exception`). -/
inductive PyErr
  | keyError
  | nameError
  | attributeError
  | valueError
  | osError
  | other (msg : String)
  deriving DecidableEq

/-- One entry of a flat playlist extraction: a dict that may or may not
carry a `url` key.  `video['url']` raises when the key is missing (flat
extraction can also yield `None` entries, where the subscript raises
`TypeError`); both failure shapes are modelled by `url = none`. -/
structure Entry where
  url : Option String
  deriving DecidableEq

/-- The metadata dict returned by `ydl.extract_info`.  A `none` field
models an absent key, so `info_dict.get(key, default)` yields the
default and `info_dict[key]` raises `KeyError`. -/
structure InfoDict where
  title : Option String := none
  duration : Option ℚ := none
  uploader : Option String := none
  view_count : Option Int := none
  upload_date : Option String := none
  description : Option String := none
  entries : Option (List Entry) := none
  deriving DecidableEq

/-- The outside world: filesystem, yt-dlp, pandas writers, clock.
`extractInfo url flat` returns the info dict (`.ok none` models
`extract_info` returning a falsy value, `.error` a raised exception);
`downloadRaises url` tells whether `ydl.download([url])` raises;
the writers may raise; `timestamp` is `datetime.now().strftime(...)`. -/
structure Env where
  pathExists : String → Bool
  makedirs : String → Except PyErr Unit
  extractInfo : String → Bool → Except PyErr (Option InfoDict)
  downloadRaises : String → Bool
  csvWrite : String → Except PyErr Unit
  xlsxWrite : String → Except PyErr Unit
  timestamp : String

/-- Observable calls to the outside world, in program order. -/
inductive Event
  | mkdir (folder : String)
  | extract (url : String) (flat : Bool)
  | download (url : String)
  | writeCsv (filename : String)
  | writeXlsx (filename : String)
  deriving DecidableEq

/-- Network calls: both yt-dlp entry points contact the platform. -/
def Event.isNetwork : Event → Bool
  | .extract _ _ => true
  | .download _ => true
  | _ => false

/-- Report-file writes (`df.to_csv` / `df.to_excel`). -/
def Event.isWrite : Event → Bool
  | .writeCsv _ => true
  | .writeXlsx _ => true
  | _ => false

/-- The dict built by `get_video_info` (source lines 44-53 and 56-65).
Field names follow the source keys. -/
structure VideoInfo where
  judul : String
  url : String
  durasi_detik : ℚ
  durasi_menit : ℚ
  channel : String
  jumlah_views : Int
  tanggal_publikasi : String
  deskripsi : String
  deriving DecidableEq

/-- The all-sentinel record returned on any failure (lines 56-65). -/
def defaultVideoInfo (url : String) : VideoInfo :=
  { judul := "Tidak tersedia"
    url := url
    durasi_detik := 0
    durasi_menit := 0
    channel := "Tidak tersedia"
    jumlah_views := 0
    tanggal_publikasi := "Tidak tersedia"
    deskripsi := "Tidak tersedia" }

/-- Python `round(x)` over exact rationals: round half to even. -/
def roundHalfEven (x : ℚ) : ℤ :=
  if x - ⌊x⌋ < 1/2 then ⌊x⌋
  else if 1/2 < x - ⌊x⌋ then ⌊x⌋ + 1
  else if ⌊x⌋ % 2 = 0 then ⌊x⌋ else ⌊x⌋ + 1

/-- Python `round(x, 2)` (idealised over exact rationals). -/
def pyRound2 (x : ℚ) : ℚ := (roundHalfEven (x * 100) : ℚ) / 100

/-- Numeric value of a digit character. -/
def digitVal (c : Char) : ℕ := c.toNat - 48

/-- Gregorian leap year, as `datetime` validates it. -/
def isLeap (y : ℕ) : Bool := (y % 4 == 0 && !(y % 100 == 0)) || y % 400 == 0

/-- Days in a month, as `datetime` validates them. -/
def daysInMonth (y m : ℕ) : ℕ :=
  if m = 2 then (if isLeap y then 29 else 28)
  else if m = 4 ∨ m = 6 ∨ m = 9 ∨ m = 11 then 30 else 31

/-- Model of `datetime.strptime(s, '%Y%m%d').strftime('%Y-%m-%d')`:
on a canonical 8-digit `YYYYMMDD` string denoting a valid calendar date
(`datetime` requires year ≥ 1) it inserts the two dashes, otherwise it
raises (`none`).  `strptime`'s leniency towards shorter field widths is
not modelled: upstream dates are 8-digit strings per the collaborator
contract. -/
def yearOf (c1 c2 c3 c4 : Char) : ℕ :=
  1000 * digitVal c1 + 100 * digitVal c2 + 10 * digitVal c3 + digitVal c4

def twoDigit (a b : Char) : ℕ := 10 * digitVal a + digitVal b

def strpf (s : String) : Option String :=
  match s.data with
  | [c1, c2, c3, c4, c5, c6, c7, c8] =>
    if c1.isDigit && c2.isDigit && c3.isDigit && c4.isDigit &&
       c5.isDigit && c6.isDigit && c7.isDigit && c8.isDigit then
      if 1 ≤ yearOf c1 c2 c3 c4 ∧ 1 ≤ twoDigit c5 c6 ∧ twoDigit c5 c6 ≤ 12 ∧
         1 ≤ twoDigit c7 c8 ∧
         twoDigit c7 c8 ≤ daysInMonth (yearOf c1 c2 c3 c4) (twoDigit c5 c6) then
        some (String.mk [c1, c2, c3, c4, '-', c5, c6, '-', c7, c8])
      else none
    else none
  | _ => none

/-- Line 51 of the source: the conditional expression
`strptime(d.get('upload_date', '19700101'), ...) if d.get('upload_date')
else 'Tidak tersedia'` evaluates its condition first, so the `'19700101'`
fallback is dead code: parsing happens only on a truthy actual value
(and raises `ValueError` on a malformed one). -/
def tanggalPublikasi : Option String → Except PyErr String
  | none => .ok "Tidak tersedia"
  | some s =>
    if s = "" then .ok "Tidak tersedia"
    else
      match strpf s with
      | some t => .ok t
      | none => .error .valueError

/-- Line 48: `round(d.get('duration', 0) / 60, 2) if d.get('duration')
else 0` — the guard is Python truthiness, so both an absent key and a
zero duration give `0`. -/
def durasiMenit : Option ℚ → ℚ
  | none => 0
  | some q => if q ≠ 0 then pyRound2 (q / 60) else 0

/-- The `try:` body of `get_video_info` (lines 34-53): any raise inside
it surfaces as `.error`.  `extract_info` returning a falsy value makes
`info_dict.get` raise `AttributeError`. -/
def get_video_info_body (url : String) (is_playlist_item : Bool) (env : Env) :
    Except PyErr VideoInfo :=
  match env.extractInfo url is_playlist_item with
  | .error e => .error e
  | .ok none => .error .attributeError
  | .ok (some d) =>
    match tanggalPublikasi d.upload_date with
    | .error e => .error e
    | .ok tanggal =>
      .ok { judul := d.title.getD "Tidak tersedia"
            url := url
            durasi_detik := d.duration.getD 0
            durasi_menit := durasiMenit d.duration
            channel := d.uploader.getD "Tidak tersedia"
            jumlah_views := d.view_count.getD 0
            tanggal_publikasi := tanggal
            deskripsi := d.description.getD "Tidak tersedia" }

/-- `get_video_info` (lines 30-65): the blanket `except Exception`
returns the all-sentinel record with the given url.  The yt-dlp call is
always attempted, so the caller records `Event.extract url flat`. -/
def get_video_info (url : String) (is_playlist_item : Bool) (env : Env) :
    VideoInfo :=
  match get_video_info_body url is_playlist_item env with
  | .ok v => v
  | .error _ => defaultVideoInfo url

/-- `get_video_info` as its caller sees it: the `except Exception`
(lines 54-65) catches every raise, so `.error` can never escape. -/
def get_video_infoE (url : String) (is_playlist_item : Bool) (env : Env) :
    Except PyErr VideoInfo :=
  match get_video_info_body url is_playlist_item env with
  | .ok v => .ok v
  | .error _ => .ok (defaultVideoInfo url)

/-- `download_video` (lines 67-93): attempts the yt-dlp download; on any
raised exception it logs and returns `False`, never raising to the
caller.  The download call is always attempted, hence the single
`Event.download url` in the trace. -/
def download_video (url download_folder : String) (env : Env) :
    Bool × List Event :=
  (!env.downloadRaises url, [Event.download url])

/-- `setup_download_folder` (lines 18-28): creates the folder if it does
not exist; a failed `os.makedirs` is logged and re-raised. -/
def setup_download_folder (folder : String) (env : Env) :
    Except PyErr Unit × List Event :=
  if env.pathExists folder then (.ok (), [])
  else
    match env.makedirs folder with
    | .ok _ => (.ok (), [Event.mkdir folder])
    | .error e => (.error e, [Event.mkdir folder])

/-- The `try:` body of `download_single_video` (lines 99-124): provision
the folder (re-raised failure propagates), resolve metadata (non-flat),
fetch, and on fetch success write the CSV and then the Excel report
(either write may raise); on fetch failure return `None` with no write. -/
def download_single_video_body (url download_folder : String) (env : Env) :
    Except PyErr (Option VideoInfo) × List Event :=
  match setup_download_folder download_folder env with
  | (.error e, tr) => (.error e, tr)
  | (.ok _, tr0) =>
    let vi := get_video_info url false env
    let tr1 := tr0 ++ [Event.extract url false]
    match download_video url download_folder env with
    | (false, trD) => (.ok none, tr1 ++ trD)
    | (true, trD) =>
      let csvName := "youtube_video_" ++ env.timestamp ++ ".csv"
      let xlsxName := "youtube_video_" ++ env.timestamp ++ ".xlsx"
      let tr2 := tr1 ++ trD ++ [Event.writeCsv csvName]
      match env.csvWrite csvName with
      | .error e => (.error e, tr2)
      | .ok _ =>
        let tr3 := tr2 ++ [Event.writeXlsx xlsxName]
        match env.xlsxWrite xlsxName with
        | .error e => (.error e, tr3)
        | .ok _ => (.ok (some vi), tr3)

/-- `download_single_video` as its caller sees it: the blanket
`except Exception` (lines 126-128) turns every raised error into a
logged `None` return, so the `.error` constructor can never reach the
caller. -/
def download_single_videoE (url download_folder : String) (env : Env) :
    Except PyErr (Option VideoInfo) × List Event :=
  match download_single_video_body url download_folder env with
  | (.ok r, tr) => (.ok r, tr)
  | (.error _, tr) => (.ok none, tr)

/-- `download_single_video` (lines 95-128), value-level view. -/
def download_single_video (url download_folder : String) (env : Env) :
    Option VideoInfo × List Event :=
  match download_single_videoE url download_folder env with
  | (.ok r, tr) => (r, tr)
  | (.error _, tr) => (none, tr)

/-- One accumulated row of the playlist workflow: the `get_video_info`
dict after the two mutations `video_info['playlist'] = ...` and
`video_info['urutan_playlist'] = index` (lines 163-164). -/
structure PlRow where
  info : VideoInfo
  playlist : String
  urutan_playlist : ℕ
  deriving DecidableEq

/-- The loop state of `extract_playlist_info`: the accumulated rows, the
failed-URL list, and the current value of the Python local `video_url`,
which persists across iterations and is unbound (`none`) before its
first assignment — the `except` handler at line 172 reads it. -/
structure LoopState where
  video_data : List PlRow
  failed_downloads : List String
  lastUrl : Option String
  deriving DecidableEq

/-- The body of one iteration of the loop at lines 157-173, at 1-based
`index`.  `video['url']` raises when the key is missing; the handler
then appends `video_url`, which raises `NameError` if it was never
bound (first iteration) and otherwise holds the previous item's URL.
When the key is present, metadata is resolved (never raises), the row
is appended, and a failed fetch appends the URL to the failed list. -/
def processEntry (folder title : String) (index : ℕ) (video : Entry)
    (st : LoopState) (env : Env) : Except PyErr LoopState × List Event :=
  match video.url with
  | none =>
    match st.lastUrl with
    | none => (.error .nameError, [])
    | some u =>
      (.ok { st with failed_downloads := st.failed_downloads ++ [u] }, [])
  | some video_url =>
    let video_info := get_video_info video_url true env
    let row : PlRow :=
      { info := video_info, playlist := title, urutan_playlist := index }
    let st1 : LoopState :=
      { st with video_data := st.video_data ++ [row], lastUrl := some video_url }
    let tr := [Event.extract video_url true]
    match download_video video_url folder env with
    | (true, trD) => (.ok st1, tr ++ trD)
    | (false, trD) =>
      (.ok { st1 with failed_downloads := st1.failed_downloads ++ [video_url] },
       tr ++ trD)

/-- The loop at lines 157-173 over the remaining entries, starting at
1-based `index`.  A raise escaping an iteration (the `NameError` case)
aborts the loop and propagates. -/
def runEntries (folder title : String) (env : Env) :
    ℕ → List Entry → LoopState → Except PyErr LoopState × List Event
  | _, [], st => (.ok st, [])
  | index, video :: rest, st =>
    match processEntry folder title index video st env with
    | (.error e, tr) => (.error e, tr)
    | (.ok st1, tr) =>
      ((runEntries folder title env (index + 1) rest st1).1,
       tr ++ (runEntries folder title env (index + 1) rest st1).2)

/-- The `try:` body of `extract_playlist_info` (lines 134-200):
provision the folder, flat-extract the playlist (a falsy result returns
`None`), read `playlist_info['title']` and `playlist_info['entries']`
(bracket access raises `KeyError` when absent), run the loop from index
1, and if any rows accumulated write the CSV and then the Excel report
(either write may raise); finally return the accumulated rows. -/
def extract_playlist_info_body (playlist_url download_folder : String)
    (env : Env) : Except PyErr (Option (List PlRow)) × List Event :=
  match setup_download_folder download_folder env with
  | (.error e, tr) => (.error e, tr)
  | (.ok _, tr0) =>
    let tr1 := tr0 ++ [Event.extract playlist_url true]
    match env.extractInfo playlist_url true with
    | .error e => (.error e, tr1)
    | .ok none => (.ok none, tr1)
    | .ok (some playlist_info) =>
      match playlist_info.title with
      | none => (.error .keyError, tr1)
      | some title =>
        match playlist_info.entries with
        | none => (.error .keyError, tr1)
        | some entries =>
          match runEntries download_folder title env 1 entries
              ⟨[], [], none⟩ with
          | (.error e, tr2) => (.error e, tr1 ++ tr2)
          | (.ok st, tr2) =>
            if st.video_data = [] then (.ok (some st.video_data), tr1 ++ tr2)
            else
              let csvName := "youtube_playlist_" ++ env.timestamp ++ ".csv"
              let xlsxName := "youtube_playlist_" ++ env.timestamp ++ ".xlsx"
              let tr3 := tr1 ++ tr2 ++ [Event.writeCsv csvName]
              match env.csvWrite csvName with
              | .error e => (.error e, tr3)
              | .ok _ =>
                let tr4 := tr3 ++ [Event.writeXlsx xlsxName]
                match env.xlsxWrite xlsxName with
                | .error e => (.error e, tr4)
                | .ok _ => (.ok (some st.video_data), tr4)

/-- `extract_playlist_info` as its caller sees it: the blanket
`except Exception` (lines 202-204) turns every raised error into a
logged `None` return. -/
def extract_playlist_infoE (playlist_url download_folder : String)
    (env : Env) : Except PyErr (Option (List PlRow)) × List Event :=
  match extract_playlist_info_body playlist_url download_folder env with
  | (.ok r, tr) => (.ok r, tr)
  | (.error _, tr) => (.ok none, tr)

/-- `extract_playlist_info` (lines 130-204), value-level view. -/
def extract_playlist_info (playlist_url download_folder : String)
    (env : Env) : Option (List PlRow) × List Event :=
  match extract_playlist_infoE playlist_url download_folder env with
  | (.ok r, tr) => (r, tr)
  | (.error _, tr) => (none, tr)

/-- The record built on the success path of `get_video_info_body`. -/
def successRecord (url : String) (d : InfoDict) (tanggal : String) :
    VideoInfo :=
  { judul := d.title.getD "Tidak tersedia"
    url := url
    durasi_detik := d.duration.getD 0
    durasi_menit := durasiMenit d.duration
    channel := d.uploader.getD "Tidak tersedia"
    jumlah_views := d.view_count.getD 0
    tanggal_publikasi := tanggal
    deskripsi := d.description.getD "Tidak tersedia" }

/-- The rows the loop accumulates: one per entry whose `url` key is
present, in order; the 1-based index advances on every entry whether or
not a row is produced for it. -/
def loopRows (title : String) (env : Env) : ℕ → List Entry → List PlRow
  | _, [] => []
  | index, video :: rest =>
    match video.url with
    | none => loopRows title env (index + 1) rest
    | some u =>
      { info := get_video_info u true env
        playlist := title
        urutan_playlist := index } :: loopRows title env (index + 1) rest

/-! ### Concrete environments used by counterexamples and witnesses -/

/-- Folder creation fails at the OS level. -/
def envNoFolder : Env :=
  { pathExists := fun _ => false
    makedirs := fun _ => .error .osError
    extractInfo := fun _ _ => .ok none
    downloadRaises := fun _ => false
    csvWrite := fun _ => .ok ()
    xlsxWrite := fun _ => .ok ()
    timestamp := "20240101_000000" }

/-- Metadata extraction raises on every URL. -/
def envExtractRaises : Env :=
  { pathExists := fun _ => true
    makedirs := fun _ => .ok ()
    extractInfo := fun _ _ => .error (.other "network unreachable")
    downloadRaises := fun _ => true
    csvWrite := fun _ => .ok ()
    xlsxWrite := fun _ => .ok ()
    timestamp := "20240101_000000" }

/-- A well-formed two-member playlist whose every download raises. -/
def plDict : InfoDict :=
  { title := some "My Playlist"
    entries := some [Entry.mk (some "https://v1"), Entry.mk (some "https://v2")] }

def envPlaylist : Env :=
  { pathExists := fun _ => true
    makedirs := fun _ => .ok ()
    extractInfo := fun u _ =>
      if u = "https://pl" then .ok (some plDict)
      else .ok (some { title := some "vid" })
    downloadRaises := fun _ => true
    csvWrite := fun _ => .ok ()
    xlsxWrite := fun _ => .ok ()
    timestamp := "20240101_000000" }

/-- A playlist whose FIRST entry has no url key (e.g. a `None` entry for
an unavailable video); everything else is healthy. -/
def envBadFirstEntry : Env :=
  { pathExists := fun _ => true
    makedirs := fun _ => .ok ()
    extractInfo := fun u _ =>
      if u = "https://pl" then
        .ok (some { title := some "My Playlist"
                    entries := some [Entry.mk none, Entry.mk (some "https://v2")] })
      else .ok (some { title := some "vid" })
    downloadRaises := fun _ => false
    csvWrite := fun _ => .ok ()
    xlsxWrite := fun _ => .ok ()
    timestamp := "20240101_000000" }

/-- A collaborator response with a zero duration and no upload date. -/
def dictZeroDuration : InfoDict := { title := some "a video", duration := some 0 }

def envZeroDuration : Env :=
  { pathExists := fun _ => true
    makedirs := fun _ => .ok ()
    extractInfo := fun _ _ => .ok (some dictZeroDuration)
    downloadRaises := fun _ => false
    csvWrite := fun _ => .ok ()
    xlsxWrite := fun _ => .ok ()
    timestamp := "20240101_000000" }

/-- A collaborator response with a dated upload. -/
def dictDated : InfoDict := { upload_date := some "20240131" }

def envDated : Env :=
  { pathExists := fun _ => true
    makedirs := fun _ => .ok ()
    extractInfo := fun _ _ => .ok (some dictDated)
    downloadRaises := fun _ => false
    csvWrite := fun _ => .ok ()
    xlsxWrite := fun _ => .ok ()
    timestamp := "20240101_000000" }

/-- A healthy environment whose CSV report write raises — the fetch
succeeds, only the reporting fails.  Its playlist extraction yields a
dict without an `entries` key, so the playlist workflow raises
`KeyError` internally. -/
def envWriteFails : Env :=
  { pathExists := fun _ => true
    makedirs := fun _ => .ok ()
    extractInfo := fun _ _ => .ok (some { title := some "vid" })
    downloadRaises := fun _ => false
    csvWrite := fun _ => .error .osError
    xlsxWrite := fun _ => .ok ()
    timestamp := "20240101_000000" }

/-- The two rows the witness playlist produces. -/
def witnessRow (u : String) (i : ℕ) : PlRow :=
  { info := { judul := "vid", url := u, durasi_detik := 0, durasi_menit := 0,
              channel := "Tidak tersedia", jumlah_views := 0,
              tanggal_publikasi := "Tidak tersedia",
              deskripsi := "Tidak tersedia" }
    playlist := "My Playlist"
    urutan_playlist := i }


/-! ### Helper lemmas about the metadata resolver -/

theorem roundHalfEven_nonneg (x : ℚ) (hx : 0 ≤ x) : 0 ≤ roundHalfEven x := by
  have hf : (0 : ℤ) ≤ ⌊x⌋ := Int.floor_nonneg.mpr hx
  unfold roundHalfEven
  split
  · exact hf
  · split
    · omega
    · split <;> omega

theorem pyRound2_nonneg (x : ℚ) (hx : 0 ≤ x) : 0 ≤ pyRound2 x := by
  unfold pyRound2
  have h1 : 0 ≤ x * 100 := by positivity
  have h2 : (0 : ℚ) ≤ (roundHalfEven (x * 100) : ℚ) := by
    exact_mod_cast roundHalfEven_nonneg _ h1
  positivity

theorem roundHalfEven_zero : roundHalfEven 0 = 0 := by
  unfold roundHalfEven
  norm_num

theorem pyRound2_zero : pyRound2 0 = 0 := by
  unfold pyRound2
  norm_num [roundHalfEven_zero]

/-- `durasiMenit` agrees with the rounding formula whenever the duration
is present, including the zero (falsy) case. -/
theorem durasiMenit_eq (q : ℚ) : durasiMenit (some q) = pyRound2 (q / 60) := by
  by_cases hq : q = 0
  · subst hq
    simp [durasiMenit, zero_div, pyRound2_zero]
  · simp [durasiMenit, hq]

/-- If the upstream date string parses, `tanggalPublikasi` surfaces the
parsed rendering. -/
theorem tanggalPublikasi_parse (s t : String) (h : strpf s = some t) :
    tanggalPublikasi (some s) = .ok t := by
  have hne : ¬s = "" := by
    intro he
    subst he
    simp [strpf] at h
  simp only [tanggalPublikasi, if_neg hne, h]

/-- Inverting a successful `tanggalPublikasi`. -/
theorem tanggalPublikasi_ok_inv (o : Option String) (t : String)
    (h : tanggalPublikasi o = .ok t) :
    (t = "Tidak tersedia" ∧ (o = none ∨ o = some "")) ∨
      ∃ s, o = some s ∧ strpf s = some t := by
  cases o with
  | none =>
    left
    simp only [tanggalPublikasi, Except.ok.injEq] at h
    exact ⟨h.symm, Or.inl rfl⟩
  | some s =>
    by_cases he : s = ""
    · subst he
      left
      have hv : tanggalPublikasi (some "") = .ok "Tidak tersedia" := rfl
      rw [hv] at h
      simp only [Except.ok.injEq] at h
      exact ⟨h.symm, Or.inr rfl⟩
    · right
      simp only [tanggalPublikasi, if_neg he] at h
      cases hps : strpf s with
      | none =>
        rw [hps] at h
        exact absurd h (by simp)
      | some t' =>
        rw [hps] at h
        simp only [Except.ok.injEq] at h
        exact ⟨s, rfl, by rw [hps, h]⟩

/-- Only the literal `"19700101"` renders to `"1970-01-01"`. -/
theorem strpf_eq_1970 (s : String) (h : strpf s = some "1970-01-01") :
    s = "19700101" := by
  unfold strpf at h
  split at h
  case h_2 => exact absurd h (by simp)
  case h_1 c1 c2 c3 c4 c5 c6 c7 c8 heq =>
    split at h
    · split at h
      · simp only [Option.some.injEq] at h
        have hd : [c1, c2, c3, c4, '-', c5, c6, '-', c7, c8] =
            ("1970-01-01" : String).data := congrArg String.data h
        simp only [String.data] at hd
        norm_num [List.cons.injEq] at hd
        obtain ⟨h1, h2, h3, h4, h5, h6, h7, h8⟩ := hd
        cases s with
        | mk data =>
          simp only [String.data] at heq
          subst heq h1 h2 h3 h4 h5 h6 h7 h8
          rfl
      · exact absurd h (by simp)
    · exact absurd h (by simp)

theorem get_video_info_body_ok (url : String) (flat : Bool) (env : Env)
    (d : InfoDict) (tanggal : String)
    (hex : env.extractInfo url flat = .ok (some d))
    (ht : tanggalPublikasi d.upload_date = .ok tanggal) :
    get_video_info_body url flat env = .ok (successRecord url d tanggal) := by
  unfold get_video_info_body
  rw [hex]
  dsimp only
  rw [ht]
  rfl

theorem get_video_info_body_ok_inv (url : String) (flat : Bool) (env : Env)
    (v : VideoInfo) (h : get_video_info_body url flat env = .ok v) :
    ∃ d, env.extractInfo url flat = .ok (some d) ∧
      tanggalPublikasi d.upload_date = .ok v.tanggal_publikasi ∧
      v = successRecord url d v.tanggal_publikasi := by
  unfold get_video_info_body at h
  split at h
  · exact absurd h (by simp)
  · exact absurd h (by simp)
  · next d hex =>
    split at h
    · exact absurd h (by simp)
    · next t ht =>
      simp only [Except.ok.injEq] at h
      refine ⟨d, hex, ?_, ?_⟩
      · rw [ht, ← h]
      · rw [← h]
        rfl

theorem get_video_info_of_body_ok (url : String) (flat : Bool) (env : Env)
    (v : VideoInfo) (h : get_video_info_body url flat env = .ok v) :
    get_video_info url flat env = v := by
  unfold get_video_info
  rw [h]

theorem get_video_info_of_body_err (url : String) (flat : Bool) (env : Env)
    (e : PyErr) (h : get_video_info_body url flat env = .error e) :
    get_video_info url flat env = defaultVideoInfo url := by
  unfold get_video_info
  rw [h]

/-- Both paths of `get_video_info` put the input url in the record. -/
theorem get_video_info_url_eq (url : String) (flat : Bool) (env : Env) :
    (get_video_info url flat env).url = url := by
  cases hb : get_video_info_body url flat env with
  | ok v =>
    rw [get_video_info_of_body_ok url flat env v hb]
    obtain ⟨d, -, -, hv⟩ := get_video_info_body_ok_inv url flat env v hb
    rw [hv]
    rfl
  | error e =>
    rw [get_video_info_of_body_err url flat env e hb]
    rfl

/-! ### Helper lemmas about the playlist loop -/

theorem runEntries_ok_video_data (folder title : String) (env : Env) :
    ∀ (es : List Entry) (index : ℕ) (st st' : LoopState),
      (runEntries folder title env index es st).1 = .ok st' →
      st'.video_data = st.video_data ++ loopRows title env index es := by
  intro es
  induction es with
  | nil =>
    intro index st st' h
    simp only [runEntries, Except.ok.injEq] at h
    simp [← h, loopRows]
  | cons video rest ih =>
    intro index st st' h
    cases hvu : video.url with
    | none =>
      cases hlu : st.lastUrl with
      | none => simp [runEntries, processEntry, hvu, hlu] at h
      | some u =>
        simp only [runEntries, processEntry, hvu, hlu] at h
        have hd := ih (index + 1) _ st' h
        simpa [loopRows, hvu] using hd
    | some u =>
      cases hdr : env.downloadRaises u with
      | false =>
        simp only [runEntries, processEntry, hvu, download_video, hdr,
          Bool.not_false] at h
        have hd := ih (index + 1) _ st' h
        rw [hd]
        simp [loopRows, hvu]
      | true =>
        simp only [runEntries, processEntry, hvu, download_video, hdr,
          Bool.not_true] at h
        have hd := ih (index + 1) _ st' h
        rw [hd]
        simp [loopRows, hvu]

theorem runEntries_ok_exists (folder title : String) (env : Env) :
    ∀ (es : List Entry), (∀ e ∈ es, e.url ≠ none) →
      ∀ (index : ℕ) (st : LoopState), ∃ st',
        (runEntries folder title env index es st).1 = .ok st' := by
  intro es
  induction es with
  | nil =>
    intro _ index st
    exact ⟨st, rfl⟩
  | cons video rest ih =>
    intro hall index st
    cases hvu : video.url with
    | none => exact absurd hvu (hall video (List.mem_cons_self video rest))
    | some u =>
      cases hdr : env.downloadRaises u with
      | false =>
        simp only [runEntries, processEntry, hvu, download_video, hdr,
          Bool.not_false]
        exact ih (fun e he => hall e (List.mem_cons_of_mem _ he)) (index + 1) _
      | true =>
        simp only [runEntries, processEntry, hvu, download_video, hdr,
          Bool.not_true]
        exact ih (fun e he => hall e (List.mem_cons_of_mem _ he)) (index + 1) _

theorem loopRows_length (title : String) (env : Env) :
    ∀ (es : List Entry), (∀ e ∈ es, e.url ≠ none) →
      ∀ index, (loopRows title env index es).length = es.length := by
  intro es
  induction es with
  | nil =>
    intro _ _
    rfl
  | cons video rest ih =>
    intro hall index
    cases hvu : video.url with
    | none => exact absurd hvu (hall video (List.mem_cons_self video rest))
    | some u =>
      simp [loopRows, hvu, ih (fun e he => hall e (List.mem_cons_of_mem _ he))]

theorem loopRows_mem (title : String) (env : Env) :
    ∀ (es : List Entry) (index : ℕ) (r : PlRow),
      r ∈ loopRows title env index es →
      r.playlist = title ∧ index ≤ r.urutan_playlist ∧
        r.urutan_playlist < index + es.length ∧
        ∃ e, es[r.urutan_playlist - index]? = some e ∧
          e.url = some r.info.url := by
  intro es
  induction es with
  | nil =>
    intro index r hr
    simp [loopRows] at hr
  | cons video rest ih =>
    intro index r hr
    cases hvu : video.url with
    | none =>
      rw [loopRows, hvu] at hr
      obtain ⟨hp, hge, hlt, e, hget, hurl⟩ := ih (index + 1) r hr
      refine ⟨hp, by omega, by simp only [List.length_cons]; omega, e, ?_, hurl⟩
      have hk : r.urutan_playlist - index = (r.urutan_playlist - (index + 1)) + 1 := by
        omega
      rw [hk, List.getElem?_cons_succ]
      exact hget
    | some u =>
      rw [loopRows, hvu] at hr
      rcases List.mem_cons.mp hr with hr | hr
      · subst hr
        refine ⟨rfl, le_refl _, by simp, video, ?_, ?_⟩
        · simp
        · rw [hvu, get_video_info_url_eq]
      · obtain ⟨hp, hge, hlt, e, hget, hurl⟩ := ih (index + 1) r hr
        refine ⟨hp, by omega, by simp only [List.length_cons]; omega, e, ?_, hurl⟩
        have hk : r.urutan_playlist - index = (r.urutan_playlist - (index + 1)) + 1 := by
          omega
        rw [hk, List.getElem?_cons_succ]
        exact hget

theorem loopRows_pairwise (title : String) (env : Env) :
    ∀ (es : List Entry) (index : ℕ),
      (loopRows title env index es).Pairwise
        (fun a b => a.urutan_playlist < b.urutan_playlist) := by
  intro es
  induction es with
  | nil =>
    intro index
    simp [loopRows]
  | cons video rest ih =>
    intro index
    cases hvu : video.url with
    | none =>
      rw [loopRows, hvu]
      exact ih (index + 1)
    | some u =>
      rw [loopRows, hvu]
      refine List.pairwise_cons.mpr ⟨?_, ih (index + 1)⟩
      intro b hb
      have := (loopRows_mem title env rest (index + 1) b hb).2.1
      simpa using by omega

/-- Every event the folder provisioner emits is the mkdir attempt. -/
theorem setup_download_folder_mkdir_only (folder : String) (env : Env) :
    ∀ ev ∈ (setup_download_folder folder env).2, ev = Event.mkdir folder := by
  unfold setup_download_folder
  split
  · simp
  · split <;> simp

/-- Whatever rows the playlist workflow returns are exactly the rows the
loop accumulated. -/
theorem extract_playlist_info_some_inv (playlist_url download_folder : String)
    (env : Env) (pinfo : InfoDict) (title : String) (entries : List Entry)
    (rows : List PlRow)
    (hpi : env.extractInfo playlist_url true = .ok (some pinfo))
    (ht : pinfo.title = some title) (he : pinfo.entries = some entries)
    (h : (extract_playlist_info playlist_url download_folder env).1 = some rows) :
    rows = loopRows title env 1 entries := by
  unfold extract_playlist_info extract_playlist_infoE
    extract_playlist_info_body at h
  rcases hsp : setup_download_folder download_folder env with ⟨s1, trS⟩
  rw [hsp] at h
  cases s1 with
  | error e => simp at h
  | ok _ =>
    rw [hpi] at h
    dsimp only at h
    rw [ht, he] at h
    dsimp only at h
    rcases hrun : runEntries download_folder title env 1 entries
        ⟨[], [], none⟩ with ⟨r2, tr2⟩
    rw [hrun] at h
    cases r2 with
    | error e => simp at h
    | ok st =>
      dsimp only at h
      have hst : (runEntries download_folder title env 1 entries
          ⟨[], [], none⟩).1 = .ok st := by
        rw [hrun]
      have hdata := runEntries_ok_video_data download_folder title env entries
        1 ⟨[], [], none⟩ st hst
      simp only [List.nil_append] at hdata
      by_cases hemp : st.video_data = []
      · rw [if_pos hemp] at h
        dsimp only at h
        simp only [Option.some.injEq] at h
        rw [← h, hdata]
      · rw [if_neg hemp] at h
        cases hcw : env.csvWrite ("youtube_playlist_" ++ env.timestamp ++ ".csv") with
        | error e =>
          rw [hcw] at h
          simp at h
        | ok u =>
          rw [hcw] at h
          dsimp only at h
          cases hxw : env.xlsxWrite ("youtube_playlist_" ++ env.timestamp ++ ".xlsx") with
          | error e =>
            rw [hxw] at h
            simp at h
          | ok u =>
            rw [hxw] at h
            dsimp only at h
            simp only [Option.some.injEq] at h
            rw [← h, hdata]

/-- When the playlist resolves, every entry carries a url, the folder
provisioner succeeds and both report writes succeed, the workflow
returns exactly the accumulated rows. -/
theorem extract_playlist_info_returns (playlist_url download_folder : String)
    (env : Env) (pinfo : InfoDict) (title : String) (entries : List Entry)
    (hpi : env.extractInfo playlist_url true = .ok (some pinfo))
    (ht : pinfo.title = some title) (he : pinfo.entries = some entries)
    (hset : (setup_download_folder download_folder env).1 = .ok ())
    (hurl : ∀ e ∈ entries, e.url ≠ none)
    (hcsv : ∀ n, env.csvWrite n = .ok ())
    (hxl : ∀ n, env.xlsxWrite n = .ok ()) :
    (extract_playlist_info playlist_url download_folder env).1 =
      some (loopRows title env 1 entries) := by
  obtain ⟨st, hst⟩ := runEntries_ok_exists download_folder title env entries
    hurl 1 ⟨[], [], none⟩
  have hdata := runEntries_ok_video_data download_folder title env entries
    1 ⟨[], [], none⟩ st hst
  simp only [List.nil_append] at hdata
  unfold extract_playlist_info extract_playlist_infoE extract_playlist_info_body
  rcases hsp : setup_download_folder download_folder env with ⟨s1, trS⟩
  rw [hsp] at hset
  dsimp only at hset
  subst hset
  rw [hpi]
  dsimp only
  rw [ht, he]
  dsimp only
  rcases hrun : runEntries download_folder title env 1 entries
      ⟨[], [], none⟩ with ⟨r2, tr2⟩
  rw [hrun] at hst
  dsimp only at hst
  subst hst
  dsimp only
  by_cases hemp : st.video_data = []
  · rw [if_pos hemp]
    dsimp only
    rw [hdata]
  · rw [if_neg hemp, hcsv, hxl]
    dsimp only
    rw [hdata]

/-! ### The claims -/

/-- C1 counterexample: on a folder whose creation fails at the OS level,
neither `download_single_video` nor `extract_playlist_info` raises
anything to its caller — both catch the error and return the value
`None` (here: `.ok none`), contradicting "raise `FolderCreationError`
to their caller … rather than returning a value". -/
theorem C1_counterexample :
    download_single_videoE "https://v" "/forbidden" envNoFolder =
      (.ok none, [Event.mkdir "/forbidden"]) ∧
    extract_playlist_infoE "https://pl" "/forbidden" envNoFolder =
      (.ok none, [Event.mkdir "/forbidden"]) := ⟨rfl, rfl⟩

/-- C1 (amended): for every folder path whose creation fails at the OS
level, both workflows catch the `FolderCreationError` internally and
return `None` before any network call is attempted — the trace holds
only the mkdir attempt, no network event. -/
theorem C1_amended_folder_failure (url playlist_url download_folder : String)
    (env : Env) (err : PyErr)
    (hex : env.pathExists download_folder = false)
    (hmk : env.makedirs download_folder = .error err) :
    download_single_video url download_folder env =
      (none, [Event.mkdir download_folder]) ∧
    extract_playlist_info playlist_url download_folder env =
      (none, [Event.mkdir download_folder]) ∧
    ∀ ev ∈ [Event.mkdir download_folder], ev.isNetwork = false := by
  have hs : setup_download_folder download_folder env =
      (.error err, [Event.mkdir download_folder]) := by
    simp only [setup_download_folder, hex, hmk]
    rfl
  refine ⟨?_, ?_, ?_⟩
  · unfold download_single_video download_single_videoE
      download_single_video_body
    rw [hs]
  · unfold extract_playlist_info extract_playlist_infoE
      extract_playlist_info_body
    rw [hs]
  · intro ev hev
    simp only [List.mem_singleton] at hev
    subst hev
    rfl

theorem C1_amended_folder_failure_witness :
    envNoFolder.pathExists "/forbidden" = false ∧
    envNoFolder.makedirs "/forbidden" = .error .osError ∧
    (download_single_video "https://v" "/forbidden" envNoFolder =
        (none, [Event.mkdir "/forbidden"]) ∧
      extract_playlist_info "https://pl" "/forbidden" envNoFolder =
        (none, [Event.mkdir "/forbidden"]) ∧
      ∀ ev ∈ [Event.mkdir "/forbidden"], ev.isNetwork = false) :=
  ⟨rfl, rfl, C1_amended_folder_failure "https://v" "https://pl" "/forbidden"
    envNoFolder .osError rfl rfl⟩

/-- C2: the code violates the claim.  When the FIRST playlist entry has
no url key, the `except` handler at line 172 reads the unbound local
`video_url` and itself raises `NameError`; the loop aborts, the whole
workflow returns `None`, no URL is recorded in the failed list, and the
remaining member is never processed (its url never enters the trace). -/
theorem C2_first_entry_aborts_batch :
    extract_playlist_info_body "https://pl" "dl" envBadFirstEntry =
      (.error .nameError, [Event.extract "https://pl" true]) ∧
    extract_playlist_info "https://pl" "dl" envBadFirstEntry =
      (none, [Event.extract "https://pl" true]) := ⟨rfl, rfl⟩

/-- C3: for every successfully enumerated playlist (per the enumerator
contract every entry exposes a member url), with the folder provisioned
and the report writes succeeding, the workflow returns exactly one
accumulated row per playlist entry — with no assumption at all on the
download outcomes, so this holds even when every fetch fails. -/
theorem C3_row_per_entry (playlist_url download_folder : String) (env : Env)
    (pinfo : InfoDict) (title : String) (entries : List Entry)
    (hpi : env.extractInfo playlist_url true = .ok (some pinfo))
    (ht : pinfo.title = some title) (he : pinfo.entries = some entries)
    (hset : (setup_download_folder download_folder env).1 = .ok ())
    (hurl : ∀ e ∈ entries, e.url ≠ none)
    (hcsv : ∀ n, env.csvWrite n = .ok ())
    (hxl : ∀ n, env.xlsxWrite n = .ok ()) :
    ∃ rows, (extract_playlist_info playlist_url download_folder env).1 =
      some rows ∧ rows.length = entries.length :=
  ⟨loopRows title env 1 entries,
   extract_playlist_info_returns playlist_url download_folder env pinfo title
     entries hpi ht he hset hurl hcsv hxl,
   loopRows_length title env entries hurl 1⟩

theorem C3_row_per_entry_witness :
    (∀ u, envPlaylist.downloadRaises u = true) ∧
    envPlaylist.extractInfo "https://pl" true = .ok (some plDict) ∧
    plDict.title = some "My Playlist" ∧
    plDict.entries = some [Entry.mk (some "https://v1"), Entry.mk (some "https://v2")] ∧
    (setup_download_folder "dl" envPlaylist).1 = .ok () ∧
    (∀ e ∈ [Entry.mk (some "https://v1"), Entry.mk (some "https://v2")], e.url ≠ none) ∧
    (∃ rows, (extract_playlist_info "https://pl" "dl" envPlaylist).1 =
      some rows ∧
      rows.length = [Entry.mk (some "https://v1"), Entry.mk (some "https://v2")].length) :=
  ⟨fun _ => rfl, rfl, rfl, rfl, rfl, by decide,
   C3_row_per_entry "https://pl" "dl" envPlaylist plDict "My Playlist"
     [Entry.mk (some "https://v1"), Entry.mk (some "https://v2")]
     rfl rfl rfl rfl (by decide) (fun _ => rfl) (fun _ => rfl)⟩

/-- C4: the metadata resolver never lets an exception escape (the caller
always receives an `.ok` record), and on every failure — a raising or
falsy extraction, or a malformed upload date that breaks parsing — the
returned record is the all-sentinel default carrying the given URL. -/
theorem C4_resolver_never_raises (url : String) (flat : Bool) (env : Env)
    (hfail : (∃ e, env.extractInfo url flat = .error e) ∨
             env.extractInfo url flat = .ok none ∨
             ∃ d s, env.extractInfo url flat = .ok (some d) ∧
               d.upload_date = some s ∧ s ≠ "" ∧ strpf s = none) :
    (∀ env2 : Env, ∃ v, get_video_infoE url flat env2 = .ok v) ∧
    get_video_info url flat env = defaultVideoInfo url := by
  constructor
  · intro env2
    cases hb : get_video_info_body url flat env2 with
    | ok v =>
      exact ⟨v, by unfold get_video_infoE; rw [hb]⟩
    | error e =>
      exact ⟨defaultVideoInfo url, by unfold get_video_infoE; rw [hb]⟩
  · have hb : ∃ e, get_video_info_body url flat env = .error e := by
      rcases hfail with ⟨e, he⟩ | he | ⟨d, s, hd, hs, hne, hp⟩
      · exact ⟨e, by unfold get_video_info_body; rw [he]⟩
      · exact ⟨.attributeError, by unfold get_video_info_body; rw [he]⟩
      · have htg : tanggalPublikasi d.upload_date = .error .valueError := by
          rw [hs]
          simp only [tanggalPublikasi, if_neg hne, hp]
        refine ⟨.valueError, ?_⟩
        unfold get_video_info_body
        rw [hd]
        dsimp only
        rw [htg]
    obtain ⟨e, hb⟩ := hb
    exact get_video_info_of_body_err url flat env e hb

theorem C4_resolver_never_raises_witness :
    (∃ e, envExtractRaises.extractInfo "https://v" false = .error e) ∧
    ((∀ env2 : Env, ∃ v, get_video_infoE "https://v" false env2 = .ok v) ∧
     get_video_info "https://v" false envExtractRaises =
       defaultVideoInfo "https://v") :=
  ⟨⟨.other "network unreachable", rfl⟩,
   C4_resolver_never_raises "https://v" false envExtractRaises
     (Or.inl ⟨.other "network unreachable", rfl⟩)⟩

/-- C5: for every upstream duration `q ≥ 0` returned by the collaborator
(with the upload date absent or well-formed per the collaborator
contract), the resolver stores `q` as `durasi_detik` and
`round(q/60, 2)` as `durasi_menit`; a zero duration yields zero minutes
(the truthiness guard), and neither stored number is negative. -/
theorem C5_duration_rounding (url : String) (flat : Bool) (env : Env)
    (d : InfoDict) (q : ℚ)
    (hex : env.extractInfo url flat = .ok (some d))
    (hdur : d.duration = some q) (hq : 0 ≤ q)
    (hud : d.upload_date = none ∨ d.upload_date = some "" ∨
           ∃ s t, d.upload_date = some s ∧ strpf s = some t) :
    (get_video_info url flat env).durasi_detik = q ∧
    (get_video_info url flat env).durasi_menit = pyRound2 (q / 60) ∧
    (q = 0 → (get_video_info url flat env).durasi_menit = 0) ∧
    0 ≤ (get_video_info url flat env).durasi_detik ∧
    0 ≤ (get_video_info url flat env).durasi_menit := by
  have hok : ∃ tg, tanggalPublikasi d.upload_date = .ok tg := by
    rcases hud with h | h | ⟨s, t, hs, hp⟩
    · exact ⟨"Tidak tersedia", by rw [h]; rfl⟩
    · exact ⟨"Tidak tersedia", by rw [h]; rfl⟩
    · exact ⟨t, by rw [hs]; exact tanggalPublikasi_parse s t hp⟩
  obtain ⟨tg, htg⟩ := hok
  have hv := get_video_info_of_body_ok url flat env _
    (get_video_info_body_ok url flat env d tg hex htg)
  rw [hv]
  unfold successRecord
  dsimp only
  rw [hdur, Option.getD_some]
  refine ⟨rfl, durasiMenit_eq q, ?_, hq, ?_⟩
  · intro h0
    subst h0
    simp [durasiMenit]
  · rw [durasiMenit_eq q]
    refine pyRound2_nonneg _ ?_
    positivity

theorem C5_duration_rounding_witness :
    envZeroDuration.extractInfo "https://v" false = .ok (some dictZeroDuration) ∧
    dictZeroDuration.duration = some 0 ∧ (0 : ℚ) ≤ 0 ∧
    dictZeroDuration.upload_date = none ∧
    ((get_video_info "https://v" false envZeroDuration).durasi_detik = 0 ∧
     (get_video_info "https://v" false envZeroDuration).durasi_menit =
       pyRound2 (0 / 60) ∧
     ((0 : ℚ) = 0 → (get_video_info "https://v" false envZeroDuration).durasi_menit = 0) ∧
     0 ≤ (get_video_info "https://v" false envZeroDuration).durasi_detik ∧
     0 ≤ (get_video_info "https://v" false envZeroDuration).durasi_menit) :=
  ⟨rfl, rfl, le_refl 0, rfl,
   C5_duration_rounding "https://v" false envZeroDuration dictZeroDuration 0
     rfl rfl (le_refl 0) (Or.inl rfl)⟩

/-- C6: the published date is the dash-rendering of the parsed 8-digit
upstream `YYYYMMDD` string; an absent (or empty, hence falsy) upstream
date yields the "unavailable" sentinel; and a record can only carry
`"1970-01-01"` when the upstream actually supplied `"19700101"` — the
resolver-internal fallback literal is never surfaced. -/
theorem C6_publish_date (url : String) (flat : Bool) (env : Env) :
    (∀ d s t, env.extractInfo url flat = .ok (some d) →
      d.upload_date = some s → strpf s = some t →
      (get_video_info url flat env).tanggal_publikasi = t) ∧
    (∀ d, env.extractInfo url flat = .ok (some d) →
      (d.upload_date = none ∨ d.upload_date = some "") →
      (get_video_info url flat env).tanggal_publikasi = "Tidak tersedia") ∧
    ((get_video_info url flat env).tanggal_publikasi = "1970-01-01" →
      ∃ d, env.extractInfo url flat = .ok (some d) ∧
        d.upload_date = some "19700101") := by
  refine ⟨?_, ?_, ?_⟩
  · intro d s t hex hs hp
    have htg : tanggalPublikasi d.upload_date = .ok t := by
      rw [hs]
      exact tanggalPublikasi_parse s t hp
    rw [get_video_info_of_body_ok url flat env _
      (get_video_info_body_ok url flat env d t hex htg)]
    rfl
  · intro d hex hud
    have htg : tanggalPublikasi d.upload_date = .ok "Tidak tersedia" := by
      rcases hud with h | h <;> rw [h] <;> rfl
    rw [get_video_info_of_body_ok url flat env _
      (get_video_info_body_ok url flat env d _ hex htg)]
    rfl
  · intro h1970
    cases hb : get_video_info_body url flat env with
    | error e =>
      rw [get_video_info_of_body_err url flat env e hb] at h1970
      have hdef : (defaultVideoInfo url).tanggal_publikasi = "Tidak tersedia" :=
        rfl
      rw [hdef] at h1970
      exact absurd h1970 (by decide)
    | ok v =>
      rw [get_video_info_of_body_ok url flat env v hb] at h1970
      obtain ⟨d, hex, htg, -⟩ := get_video_info_body_ok_inv url flat env v hb
      rw [h1970] at htg
      rcases tanggalPublikasi_ok_inv _ _ htg with ⟨hbad, -⟩ | ⟨s, hs, hp⟩
      · exact absurd hbad (by decide)
      · exact ⟨d, hex, by rw [hs, strpf_eq_1970 s hp]⟩

theorem C6_publish_date_witness :
    envDated.extractInfo "https://v" false = .ok (some dictDated) ∧
    dictDated.upload_date = some "20240131" ∧
    strpf "20240131" = some "2024-01-31" ∧
    (get_video_info "https://v" false envDated).tanggal_publikasi =
      "2024-01-31" :=
  ⟨rfl, rfl, by decide,
   (C6_publish_date "https://v" false envDated).1 dictDated "20240131"
     "2024-01-31" rfl rfl (by decide)⟩

/-- C7: in the single-item workflow, when the fetch fails the function
returns `None` and its trace contains no report write at all — neither
the CSV nor the spreadsheet is created, although metadata was already
resolved. -/
theorem C7_failed_fetch_no_report (url download_folder : String) (env : Env)
    (hset : (setup_download_folder download_folder env).1 = .ok ())
    (hdl : env.downloadRaises url = true) :
    (download_single_video url download_folder env).1 = none ∧
    ∀ ev ∈ (download_single_video url download_folder env).2,
      ev.isWrite = false := by
  have hmk := setup_download_folder_mkdir_only download_folder env
  rcases hsp : setup_download_folder download_folder env with ⟨s1, trS⟩
  rw [hsp] at hset hmk
  dsimp only at hset hmk
  subst hset
  unfold download_single_video download_single_videoE
    download_single_video_body
  rw [hsp]
  simp only [download_video, hdl, Bool.not_true]
  refine ⟨trivial, ?_⟩
  intro ev hev
  simp only [List.mem_append, List.mem_singleton] at hev
  rcases hev with (hev | hev) | hev
  · rw [hmk ev hev]
    rfl
  · subst hev
    rfl
  · subst hev
    rfl

theorem C7_failed_fetch_no_report_witness :
    (setup_download_folder "dl" envPlaylist).1 = .ok () ∧
    envPlaylist.downloadRaises "https://v1" = true ∧
    ((download_single_video "https://v1" "dl" envPlaylist).1 = none ∧
     ∀ ev ∈ (download_single_video "https://v1" "dl" envPlaylist).2,
       ev.isWrite = false) :=
  ⟨rfl, rfl, C7_failed_fetch_no_report "https://v1" "dl" envPlaylist rfl rfl⟩

/-- C8: neither workflow ever propagates an exception to its caller: the
caller-view result is `.ok` for every environment, and every internal
failure — any raise inside the `try:` body, which includes a failing
folder creation and a failing report write — makes the function return
`None`.  In particular a failed CSV write after a successful fetch
discards the already-resolved metadata and returns `None`, never a
partial record. -/
theorem C8_internal_failures_return_none
    (url playlist_url download_folder : String) (env : Env) :
    (∃ r tr, download_single_videoE url download_folder env = (.ok r, tr)) ∧
    (∃ r tr, extract_playlist_infoE playlist_url download_folder env =
      (.ok r, tr)) ∧
    (∀ e tr, download_single_video_body url download_folder env =
        (.error e, tr) →
      download_single_video url download_folder env = (none, tr)) ∧
    (∀ e tr, extract_playlist_info_body playlist_url download_folder env =
        (.error e, tr) →
      extract_playlist_info playlist_url download_folder env = (none, tr)) ∧
    (∀ e, (setup_download_folder download_folder env).1 = .ok () →
      env.downloadRaises url = false →
      env.csvWrite ("youtube_video_" ++ env.timestamp ++ ".csv") = .error e →
      (download_single_video url download_folder env).1 = none) := by
  have hsingle : ∀ e tr, download_single_video_body url download_folder env =
      (.error e, tr) →
      download_single_video url download_folder env = (none, tr) := by
    intro e tr hb
    unfold download_single_video download_single_videoE
    rw [hb]
  refine ⟨?_, ?_, hsingle, ?_, ?_⟩
  · rcases hb : download_single_video_body url download_folder env with ⟨r0, tr0⟩
    cases r0 with
    | ok r =>
      exact ⟨r, tr0, by unfold download_single_videoE; rw [hb]⟩
    | error e =>
      exact ⟨none, tr0, by unfold download_single_videoE; rw [hb]⟩
  · rcases hb : extract_playlist_info_body playlist_url download_folder env
      with ⟨r0, tr0⟩
    cases r0 with
    | ok r =>
      exact ⟨r, tr0, by unfold extract_playlist_infoE; rw [hb]⟩
    | error e =>
      exact ⟨none, tr0, by unfold extract_playlist_infoE; rw [hb]⟩
  · intro e tr hb
    unfold extract_playlist_info extract_playlist_infoE
    rw [hb]
  · intro e hset hdl hcw
    rcases hsp : setup_download_folder download_folder env with ⟨s1, trS⟩
    rw [hsp] at hset
    dsimp only at hset
    subst hset
    have hb : ∃ tr2, download_single_video_body url download_folder env =
        (.error e, tr2) := by
      unfold download_single_video_body
      rw [hsp]
      simp only [download_video, hdl, Bool.not_false]
      rw [hcw]
      exact ⟨_, rfl⟩
    obtain ⟨tr2, hb⟩ := hb
    rw [hsingle e tr2 hb]

theorem C8_internal_failures_return_none_witness :
    (setup_download_folder "dl" envWriteFails).1 = .ok () ∧
    envWriteFails.downloadRaises "https://v" = false ∧
    envWriteFails.csvWrite ("youtube_video_" ++ envWriteFails.timestamp ++ ".csv") =
      .error .osError ∧
    download_single_video_body "https://v" "dl" envWriteFails =
      (.error .osError,
        [Event.extract "https://v" false, Event.download "https://v",
         Event.writeCsv "youtube_video_20240101_000000.csv"]) ∧
    extract_playlist_info_body "https://pl" "dl" envWriteFails =
      (.error .keyError, [Event.extract "https://pl" true]) ∧
    (download_single_video "https://v" "dl" envWriteFails =
      (none,
        [Event.extract "https://v" false, Event.download "https://v",
         Event.writeCsv "youtube_video_20240101_000000.csv"]) ∧
     extract_playlist_info "https://pl" "dl" envWriteFails =
      (none, [Event.extract "https://pl" true]) ∧
     (download_single_video "https://v" "dl" envWriteFails).1 = none) :=
  ⟨rfl, rfl, rfl, rfl, rfl,
   (C8_internal_failures_return_none "https://v" "https://pl" "dl"
      envWriteFails).2.2.1 .osError _ rfl,
   (C8_internal_failures_return_none "https://v" "https://pl" "dl"
      envWriteFails).2.2.2.1 .keyError _ rfl,
   (C8_internal_failures_return_none "https://v" "https://pl" "dl"
      envWriteFails).2.2.2.2 .osError rfl rfl rfl⟩

/-- C9: every row sequence the playlist workflow returns has strictly
increasing `urutan_playlist` values, each row's index is the 1-based
position of its member in the enumerated playlist (the entry at that
position carries exactly the row's url), and every row carries the
enumerated playlist's title. -/
theorem C9_row_invariants (playlist_url download_folder : String) (env : Env)
    (pinfo : InfoDict) (title : String) (entries : List Entry)
    (rows : List PlRow)
    (hpi : env.extractInfo playlist_url true = .ok (some pinfo))
    (ht : pinfo.title = some title) (he : pinfo.entries = some entries)
    (hrows : (extract_playlist_info playlist_url download_folder env).1 =
      some rows) :
    rows.Pairwise (fun a b => a.urutan_playlist < b.urutan_playlist) ∧
    ∀ r ∈ rows, r.playlist = title ∧ 1 ≤ r.urutan_playlist ∧
      r.urutan_playlist ≤ entries.length ∧
      ∃ e, entries[r.urutan_playlist - 1]? = some e ∧
        e.url = some r.info.url := by
  have hr := extract_playlist_info_some_inv playlist_url download_folder env
    pinfo title entries rows hpi ht he hrows
  subst hr
  refine ⟨loopRows_pairwise title env entries 1, ?_⟩
  intro r hmem
  obtain ⟨hp, hge, hlt, e, hget, hurl⟩ := loopRows_mem title env entries 1 r hmem
  exact ⟨hp, hge, by omega, e, hget, hurl⟩

theorem C9_row_invariants_witness :
    (extract_playlist_info "https://pl" "dl" envPlaylist).1 =
      some [witnessRow "https://v1" 1, witnessRow "https://v2" 2] ∧
    ([witnessRow "https://v1" 1, witnessRow "https://v2" 2].Pairwise
        (fun a b => a.urutan_playlist < b.urutan_playlist) ∧
      ∀ r ∈ [witnessRow "https://v1" 1, witnessRow "https://v2" 2],
        r.playlist = "My Playlist" ∧ 1 ≤ r.urutan_playlist ∧
        r.urutan_playlist ≤
          [Entry.mk (some "https://v1"), Entry.mk (some "https://v2")].length ∧
        ∃ e, [Entry.mk (some "https://v1"),
            Entry.mk (some "https://v2")][r.urutan_playlist - 1]? = some e ∧
          e.url = some r.info.url) :=
  ⟨rfl,
   C9_row_invariants "https://pl" "dl" envPlaylist plDict "My Playlist"
     [Entry.mk (some "https://v1"), Entry.mk (some "https://v2")]
     [witnessRow "https://v1" 1, witnessRow "https://v2" 2]
     rfl rfl rfl rfl⟩

/-- C10: on the success path as well as on the failure path, the record
the resolver returns carries exactly the input URL. -/
theorem C10_source_url_preserved (url : String) (flat : Bool) (env : Env) :
    (get_video_info url flat env).url = url :=
  get_video_info_url_eq url flat env
